import Mathlib

/-!
Verification of the message contract and delivery subsystem of the
`polako-common` repository (files `polako_common/messaging/contract_validator.py`
and `polako_common/messaging/rabbitmq_client.py`).

The Python code is shallowly embedded:

* JSON documents (what `json.loads` returns) are the inductive `JVal`.
* Python dictionary / containment / indexing operations keep Python's
  dynamic behaviour: applied to a value of the wrong shape they return a
  Python exception (`PyErr.attrError`, `PyErr.typeError`, ...) instead of a
  result, mirroring `AttributeError` / `TypeError` raised at run time.
* The file system seen by `ContractValidator` is a function from paths to
  `FileRes`: a file is absent (`open` raises `FileNotFoundError`), present
  but not valid JSON (`json.load` raises `json.JSONDecodeError`), or
  present with a parsed document.  `os.path.join` on ordinary relative
  components is string concatenation with a slash.
* `json.dumps` followed by `json.loads` is the identity on `JVal`; the wire
  body of a published or delivered message is therefore modelled by the
  `JVal` itself, and a raw inbound body is modelled by its decode/parse
  outcome (`RawBody`).
* `uuid.uuid4()` draws 122 random bits; a draw is the structure `U4`
  (the six random hex groups of the canonical form, with the version
  nibble fixed to 4 and the variant bits fixed to 10 exactly as in RFC
  4122) and `str(uuid.uuid4())` is `formatUUID4`.  Distinct draws model
  the collision-freeness of fresh UUIDs.  `datetime.utcnow()` is a
  `PyDateTime` supplied by the environment and `isoformat()` is
  `isoChars` (microseconds omitted exactly when zero, as in CPython).
* The awaited broker operations of `aio_pika` (connect, channel, qos,
  declare, bind, consume, publish) are external; their outcomes for one
  call sequence are a `BrokerEnv` record of `Except` results.
-/

/-- A JSON document, the result of a successful `json.loads`. -/
inductive JVal where
  | null
  | bool (b : Bool)
  | num (n : Int)
  | str (s : String)
  | arr (xs : List JVal)
  | obj (fields : List (String × JVal))
deriving Repr

/-- Python exceptions that the modelled code can raise or receive. -/
inductive PyErr where
  | fileNotFound
  | jsonDecode
  | unicodeDecode
  | attrError
  | typeError
  | valueError (msg : String)
  | validationError
  | amqpError (code : Nat)
deriving Repr, DecidableEq

/-- Python truthiness of a JSON value (`if x:`): `None`, `False`, `0`,
empty string, empty list and empty dict are falsy. -/
def pyTruthyJ : JVal → Bool
  | .null => false
  | .bool b => b
  | .num n => n != 0
  | .str s => s ≠ ""
  | .arr xs => !xs.isEmpty
  | .obj fields => !fields.isEmpty

/-- Python truthiness of an optional string argument (`if correlation_id:`):
`None` and the empty string are falsy. -/
def pyTruthy : Option String → Bool
  | none => false
  | some s => s ≠ ""

/-- Whether the character list `pre` is an initial segment of `l`. -/
def leadsWith : List Char → List Char → Bool
  | [], _ => true
  | _ :: _, [] => false
  | a :: as, b :: bs => a == b && leadsWith as bs

/-- Whether `needle` occurs as a contiguous run inside `hay`. -/
def containsRun (needle : List Char) : List Char → Bool
  | [] => needle.isEmpty
  | c :: cs => leadsWith needle (c :: cs) || containsRun needle cs

/-- Python `k in v` on a JSON value: key membership for dicts, element
equality for lists (a string equals only an equal string), substring test
for strings, `TypeError` otherwise. -/
def pyIn (k : String) : JVal → Except PyErr Bool
  | .obj fields => .ok (fields.any (fun p => p.1 == k))
  | .arr xs => .ok (xs.any (fun x => match x with | .str s => s == k | _ => false))
  | .str s => .ok (containsRun k.data s.data)
  | _ => .error .typeError

/-- Python `v.get(k, d)` on a JSON value: defaulted key lookup for dicts,
`AttributeError` for every other value. -/
def pyGetD (v : JVal) (k : String) (d : JVal) : Except PyErr JVal :=
  match v with
  | .obj fields => .ok ((fields.lookup k).getD d)
  | _ => .error .attrError

/-- Python `v[k]` with a string key: dict indexing (the caller has already
checked membership, so a missing key does not arise here), `TypeError` for
lists and strings and every other value. -/
def pyIndexS (v : JVal) (k : String) : Except PyErr JVal :=
  match v with
  | .obj fields =>
    match fields.lookup k with
    | some x => .ok x
    | none => .error .typeError
  | _ => .error .typeError

/-- Python `str.lower()` (ASCII case folding suffices for the schema file
names used here). -/
def pyLower (s : String) : String := ⟨s.data.map Char.toLower⟩

/-- The outcome of opening and JSON-parsing one file path. -/
inductive FileRes where
  | missing
  | malformed
  | doc (j : JVal)
deriving Repr

/-- The file system below the contracts directory, by resolved path. -/
def FS : Type := String → FileRes

/-- The `schema_cache` dict of `ContractValidator`, keyed by resolved path.
A key is inserted at most once (only after a cache miss), so an
association list consed on insert has exactly the dict's lookup
behaviour. -/
def Cache : Type := List (String × JVal)

/-- The `os.path.join` of two ordinary relative components. -/
def pathJoin (a b : String) : String := a ++ "/" ++ b

/-- Body shared by `_load_schema` and `_load_message_schema`
(contract_validator.py lines 23-58): return the cached document for the
resolved path if present, otherwise open and parse the file, caching the
document only on success.  The third component records whether the file
was read (opened) by this call. -/
def cachedLoad (fs : FS) (cache : Cache) (path : String) :
    Except PyErr JVal × Cache × Bool :=
  match cache.lookup path with
  | some j => (.ok j, cache, false)
  | none =>
    match fs path with
    | .missing => (.error .fileNotFound, cache, true)
    | .malformed => (.error .jsonDecode, cache, true)
    | .doc j => (.ok j, (path, j) :: cache, true)

/-- `_load_schema` (lines 23-39): cached load of
`os.path.join(contracts_dir, schema_file)`. -/
def load_schema (fs : FS) (contracts_dir : String) (cache : Cache)
    (schema_file : String) : Except PyErr JVal × Cache × Bool :=
  cachedLoad fs cache (pathJoin contracts_dir schema_file)

/-- `_load_message_schema` (lines 41-58): cached load of
`os.path.join(contracts_dir, domain, schema_file)`. -/
def load_message_schema (fs : FS) (contracts_dir : String) (cache : Cache)
    (domain schema_file : String) : Except PyErr JVal × Cache × Bool :=
  cachedLoad fs cache (pathJoin (pathJoin contracts_dir domain) schema_file)

/-- An ASCII single quote, written by code point to keep the source free of
stray quote characters. -/
def sqc : String := String.mk [Char.ofNat 39]

/-- The message of the `ValueError` raised at contract_validator.py line 88. -/
def schemaNotFoundMsg (domain message_type : String) : String :=
  "Message type " ++ sqc ++ message_type ++ sqc ++ " not found in domain " ++
    sqc ++ domain ++ sqc

/-- Resolved path of the per-type schema file tried first by
`get_message_schema`. -/
def typeSchemaPath (contracts_dir domain message_type : String) : String :=
  pathJoin (pathJoin contracts_dir domain) (pyLower message_type ++ ".json")

/-- Resolved path of the legacy bundle tried second by `get_message_schema`. -/
def bundleSchemaPath (contracts_dir domain : String) : String :=
  pathJoin (pathJoin contracts_dir domain) "email_messages.json"

/-- `get_message_schema` (contract_validator.py lines 60-88).  First try
the per-type file `{domain}/{message_type.lower()}.json`; its only possible
errors (`FileNotFoundError`, `json.JSONDecodeError`) are exactly the ones
the `except` clause swallows.  Then try the legacy bundle
`{domain}/email_messages.json`: on a parsed document run
`message_type in schema.get("definitions", {})` and on success index the
definition out; errors of the dynamic dict operations (a non-dict bundle,
a non-dict `definitions`) are not caught by the `except` clause and
propagate.  If both paths fall through, raise the `ValueError`. -/
def get_message_schema (fs : FS) (contracts_dir : String) (cache : Cache)
    (domain message_type : String) : Except PyErr JVal × Cache :=
  match cachedLoad fs cache (typeSchemaPath contracts_dir domain message_type) with
  | (.ok schema, c, _) => (.ok schema, c)
  | (.error _, c, _) =>
    match cachedLoad fs c (bundleSchemaPath contracts_dir domain) with
    | (.ok schema, c2, _) =>
      match pyGetD schema "definitions" (JVal.obj []) with
      | .error e => (.error e, c2)
      | .ok defs =>
        match pyIn message_type defs with
        | .error e => (.error e, c2)
        | .ok true =>
          match pyIndexS defs message_type with
          | .error e => (.error e, c2)
          | .ok d => (.ok d, c2)
        | .ok false =>
          (.error (.valueError (schemaNotFoundMsg domain message_type)), c2)
    | (.error _, c2, _) =>
      (.error (.valueError (schemaNotFoundMsg domain message_type)), c2)

/-- A model of `jsonschema.validate`: given the schema and the instance,
either return or raise.  The library is external to the repository, so the
evaluator is a parameter of the development. -/
def JValidate : Type := JVal → JVal → Except PyErr Unit

/-- `validate_message` (lines 90-102): resolve the schema, then run
`jsonschema.validate` on the payload. -/
def validate_message (fs : FS) (jv : JValidate) (contracts_dir : String)
    (cache : Cache) (domain message_type : String) (message_data : JVal) :
    Except PyErr Unit × Cache :=
  match get_message_schema fs contracts_dir cache domain message_type with
  | (.error e, c) => (.error e, c)
  | (.ok schema, c) =>
    match jv schema message_data with
    | .error e => (.error e, c)
    | .ok _ => (.ok (), c)

/-- The character for one digit in base up to 16, lowercase as produced by
CPython for `str(uuid)`. -/
def digitChar (d : Nat) : Char :=
  if d < 10 then Char.ofNat (48 + d) else Char.ofNat (87 + d)

/-- Numeric value of a base-16 digit character, inverse of `digitChar`. -/
def unDigit (c : Char) : Nat :=
  if c.isDigit then c.toNat - 48 else c.toNat - 87

/-- Fixed-width base-`b` rendering of `n`, most significant digit first
(zero padded, truncating above `b ^ w` which the callers never exceed). -/
def natChars (b : Nat) : Nat → Nat → List Char
  | 0, _ => []
  | w + 1, n => natChars b w (n / b) ++ [digitChar (n % b)]

/-- Decode a most-significant-first base-`b` digit string. -/
def unChars (b : Nat) (l : List Char) : Nat :=
  l.foldl (fun acc c => acc * b + unDigit c) 0

/-- One draw of `uuid.uuid4()`: the six random hex runs of the canonical
rendering `aaaaaaaa-bbbb-4ccc-Xddd-eeeeeeeeeeee` where `X` carries the two
fixed variant bits plus two random bits (`v < 4`, rendered as the digit
`8 + v`). -/
structure U4 where
  a : Nat
  b : Nat
  c : Nat
  v : Nat
  d : Nat
  e : Nat
deriving Repr, DecidableEq

/-- Bounds making a `U4` an actual 122-bit draw. -/
def U4.inBounds (u : U4) : Prop :=
  u.a < 16 ^ 8 ∧ u.b < 16 ^ 4 ∧ u.c < 16 ^ 3 ∧ u.v < 4 ∧ u.d < 16 ^ 3 ∧
    u.e < 16 ^ 12

instance (u : U4) : Decidable u.inBounds := by
  unfold U4.inBounds; infer_instance

/-- Character list of `str(uuid.uuid4())` for the draw `u`: the third
group is the version digit `4` followed by three random digits, the fourth
group is the variant digit followed by three random digits. -/
def uuidChars (u : U4) : List Char :=
  natChars 16 8 u.a ++ ['-'] ++ natChars 16 4 u.b ++ ['-'] ++
    ('4' :: natChars 16 3 u.c) ++ ['-'] ++
    (digitChar (8 + u.v) :: natChars 16 3 u.d) ++ ['-'] ++ natChars 16 12 u.e

/-- `str(uuid.uuid4())` for the draw `u`. -/
def formatUUID4 (u : U4) : String := String.mk (uuidChars u)

/-- A naive `datetime` as returned by `datetime.utcnow()`. -/
structure PyDateTime where
  year : Nat
  month : Nat
  day : Nat
  hour : Nat
  minute : Nat
  second : Nat
  microsecond : Nat
deriving Repr, DecidableEq

/-- Field ranges guaranteed by `datetime`. -/
def PyDateTime.inBounds (t : PyDateTime) : Prop :=
  t.year < 10 ^ 4 ∧ 0 < t.month ∧ t.month ≤ 12 ∧ 0 < t.day ∧ t.day ≤ 31 ∧
    t.hour < 24 ∧ t.minute < 60 ∧ t.second < 60 ∧ t.microsecond < 10 ^ 6

instance (t : PyDateTime) : Decidable t.inBounds := by
  unfold PyDateTime.inBounds; infer_instance

/-- Character list of `datetime.isoformat()` on a naive datetime:
`YYYY-MM-DDTHH:MM:SS` plus `.ffffff` exactly when the microsecond field is
nonzero, as CPython renders it. -/
def isoChars (t : PyDateTime) : List Char :=
  natChars 10 4 t.year ++ ['-'] ++ natChars 10 2 t.month ++ ['-'] ++
    natChars 10 2 t.day ++ ['T'] ++ natChars 10 2 t.hour ++ [':'] ++
    natChars 10 2 t.minute ++ [':'] ++ natChars 10 2 t.second ++
    (if t.microsecond = 0 then [] else ['.'] ++ natChars 10 6 t.microsecond)

/-- `datetime.utcnow().isoformat() + "Z"`, the envelope timestamp
(contract_validator.py line 120). -/
def isoZ (t : PyDateTime) : String := String.mk (isoChars t ++ ['Z'])

/-- One conditional dict entry of `create_envelope`
(`if correlation_id: envelope["metadata"]["correlationId"] = ...`): the
assignment happens exactly when the argument is Python-truthy. -/
def optEntry (key : String) (v : Option String) : List (String × JVal) :=
  match v with
  | some s => if s ≠ "" then [(key, JVal.str s)] else []
  | none => []

/-- The metadata dict built by `create_envelope` (contract_validator.py
lines 117-132): the five mandatory fields in literal order, then each
optional field appended exactly when its argument is Python-truthy. -/
def envelopeMeta (u : U4) (now : PyDateTime) (message_type : String)
    (data : JVal) (correlation_id causation_id sender : Option String) :
    List (String × JVal) :=
  [("messageId", JVal.str (formatUUID4 u)),
   ("timestamp", JVal.str (isoZ now)),
   ("messageType", JVal.str message_type),
   ("data", data),
   ("version", JVal.str "1.0")] ++
  optEntry "correlationId" correlation_id ++
  optEntry "causationId" causation_id ++
  optEntry "sender" sender

/-- The envelope dict built by `create_envelope` before envelope-schema
validation.  The draw `u` and clock reading `now` are the call's
nondeterministic inputs. -/
def envelopeVal (u : U4) (now : PyDateTime) (message_type : String)
    (data : JVal) (correlation_id causation_id sender : Option String) : JVal :=
  JVal.obj [("metadata",
    JVal.obj (envelopeMeta u now message_type data correlation_id causation_id
      sender))]

/-- `create_envelope` (contract_validator.py lines 104-138): build the
envelope, load `envelope.json` through the schema cache (errors of the
load are not caught and propagate), validate the envelope against it with
`jsonschema.validate`, and return the envelope. -/
def create_envelope (fs : FS) (jv : JValidate) (contracts_dir : String)
    (cache : Cache) (u : U4) (now : PyDateTime) (message_type : String)
    (data : JVal) (correlation_id causation_id sender : Option String) :
    Except PyErr JVal × Cache :=
  match load_schema fs contracts_dir cache "envelope.json" with
  | (.error e, c, _) => (.error e, c)
  | (.ok envelope_schema, c, _) =>
    match jv envelope_schema (envelopeVal u now message_type data
      correlation_id causation_id sender) with
    | .error e => (.error e, c)
    | .ok _ =>
      (.ok (envelopeVal u now message_type data correlation_id causation_id
        sender), c)

/-- Field lookup in the metadata block of an envelope value. -/
def metaField (envelope : JVal) (k : String) : Option JVal :=
  match envelope with
  | .obj fields =>
    match fields.lookup "metadata" with
    | some (.obj mf) => mf.lookup k
    | _ => none
  | _ => none

/-- An asynchronous message handler: given the payload it either returns
or raises. -/
def Handler : Type := JVal → Except PyErr Unit

/-- The value stored in `message_handlers` for a type.  `none` models a
Python-falsy handler (such as `None`); registered callables are always
truthy in Python. -/
def HandlerSlot : Type := Option Handler

/-- Outcomes of the awaited `aio_pika` operations for one call sequence.
Each field is the result the broker library would produce for that step. -/
structure BrokerEnv where
  connect_res : Except PyErr Unit
  channel_res : Except PyErr Unit
  qos_res : Except PyErr Unit
  exchange_res : Except PyErr Unit
  queue_res : Except PyErr Unit
  bind_res : Except PyErr Unit
  consume_res : Except PyErr Unit
  publish_res : Except PyErr Unit

/-- The mutable attributes of a `RabbitMQClient` (rabbitmq_client.py lines
45-60) that the modelled methods read or write, plus two observation
fields: `consuming` records that `queue.consume` was issued, and
`published` records the bodies handed to `exchange.publish` with their
routing keys.  The boolean attribute fields record whether the
corresponding Python attribute holds an object rather than `None`. -/
structure RMQClient where
  queue_name : Option String
  routing_key : Option String
  connection : Bool
  channel : Bool
  exchange : Bool
  queue : Bool
  message_handlers : List (String × HandlerSlot)
  is_connected : Bool
  consuming : Bool
  published : List (String × JVal)

/-- `connect` (rabbitmq_client.py lines 62-106): run the connection steps
in order; the first failing step leaves `_is_connected` False and
re-raises, and attributes assigned by earlier successful steps keep their
new values.  A queue is declared only when `queue_name` is set, and bound
only when `routing_key` is also set. -/
def connect (env : BrokerEnv) (st : RMQClient) : Except PyErr Unit × RMQClient :=
  match env.connect_res with
  | .error e => (.error e, { st with is_connected := false })
  | .ok _ =>
    let st1 := { st with connection := true }
    match env.channel_res with
    | .error e => (.error e, { st1 with is_connected := false })
    | .ok _ =>
      let st2 := { st1 with channel := true }
      match env.qos_res with
      | .error e => (.error e, { st2 with is_connected := false })
      | .ok _ =>
        match env.exchange_res with
        | .error e => (.error e, { st2 with is_connected := false })
        | .ok _ =>
          let st3 := { st2 with exchange := true }
          match st3.queue_name with
          | none => (.ok (), { st3 with is_connected := true })
          | some _ =>
            match env.queue_res with
            | .error e => (.error e, { st3 with is_connected := false })
            | .ok _ =>
              let st4 := { st3 with queue := true }
              match st4.routing_key with
              | none => (.ok (), { st4 with is_connected := true })
              | some _ =>
                match env.bind_res with
                | .error e => (.error e, { st4 with is_connected := false })
                | .ok _ => (.ok (), { st4 with is_connected := true })

/-- The first failure among the steps `connect` attempts for a client with
the given queue and binding configuration, in program order. -/
def connectFirstErr (env : BrokerEnv) (queue_name routing_key : Option String) :
    Option PyErr :=
  match env.connect_res with
  | .error e => some e
  | .ok _ =>
    match env.channel_res with
    | .error e => some e
    | .ok _ =>
      match env.qos_res with
      | .error e => some e
      | .ok _ =>
        match env.exchange_res with
        | .error e => some e
        | .ok _ =>
          match queue_name with
          | none => none
          | some _ =>
            match env.queue_res with
            | .error e => some e
            | .ok _ =>
              match routing_key with
              | none => none
              | some _ =>
                match env.bind_res with
                | .error e => some e
                | .ok _ => none

/-- `register_handler` (rabbitmq_client.py lines 115-123): unconditionally
store the handler under the message type.  A cons in front of the
association list gives the replacing dict-update semantics: the newest
entry for a type is the one `lookup` finds. -/
def register_handler (st : RMQClient) (message_type : String)
    (handler : HandlerSlot) : RMQClient :=
  { st with message_handlers := (message_type, handler) :: st.message_handlers }

/-- The decode/parse outcome of a raw delivery body:
`message.body.decode()` raises `UnicodeDecodeError`, or `json.loads`
raises `json.JSONDecodeError`, or a document is produced. -/
inductive RawBody where
  | undecodable
  | unparsable
  | parsed (j : JVal)

/-- Log events emitted by `_process_message`, one per logging call site. -/
inductive LogEvent where
  | errNoMetadata
  | errNoMessageType
  | warnNoHandler
  | errNoPayload
  | infoProcessed
  | errDecodeFailure
  | errProcessing
deriving Repr, DecidableEq

/-- `self.message_handlers.get(message_type)` where the looked-up key is
whatever JSON value was found at `metadata.messageType`: only a string can
match a registration; numbers and booleans are hashable and simply miss;
dicts and lists are unhashable and raise `TypeError`. -/
def handlerFor (handlers : List (String × HandlerSlot)) :
    JVal → Except PyErr (Option HandlerSlot)
  | .str s => .ok (handlers.lookup s)
  | .obj _ => .error .typeError
  | .arr _ => .error .typeError
  | _ => .ok none

/-- The body of the `try` block of `_process_message` (rabbitmq_client.py
lines 132-162), returning the emitted log events, the payloads passed to a
handler, and the raised-or-returned outcome. -/
def tryProcess (handlers : List (String × HandlerSlot)) (raw : RawBody) :
    List LogEvent × List JVal × Except PyErr Unit :=
  match raw with
  | .undecodable => ([], [], .error .unicodeDecode)
  | .unparsable => ([], [], .error .jsonDecode)
  | .parsed envelope =>
    match pyIn "metadata" envelope with
    | .error e => ([], [], .error e)
    | .ok false => ([.errNoMetadata], [], .ok ())
    | .ok true =>
      match pyGetD envelope "metadata" (JVal.obj []) with
      | .error e => ([], [], .error e)
      | .ok metadata =>
        match pyGetD metadata "messageType" JVal.null with
        | .error e => ([], [], .error e)
        | .ok mtVal =>
          if pyTruthyJ mtVal = false then ([.errNoMessageType], [], .ok ())
          else
            match handlerFor handlers mtVal with
            | .error e => ([], [], .error e)
            | .ok none => ([.warnNoHandler], [], .ok ())
            | .ok (some none) => ([.warnNoHandler], [], .ok ())
            | .ok (some (some f)) =>
              match pyGetD envelope "payload" JVal.null with
              | .error e => ([], [], .error e)
              | .ok payload =>
                match payload with
                | .null => ([.errNoPayload], [], .ok ())
                | _ =>
                  match f payload with
                  | .error e => ([], [payload], .error e)
                  | .ok _ => ([.infoProcessed], [payload], .ok ())

/-- The `except` clauses of `_process_message` (lines 163-166):
`json.JSONDecodeError` and then every other `Exception` are caught and
logged, so no exception leaves the handler body. -/
def exceptClauses (out : List LogEvent × List JVal × Except PyErr Unit) :
    List LogEvent × List JVal × Except PyErr Unit :=
  match out with
  | (logs, calls, .ok _) => (logs, calls, .ok ())
  | (logs, calls, .error .jsonDecode) => (logs ++ [.errDecodeFailure], calls, .ok ())
  | (logs, calls, .error _) => (logs ++ [.errProcessing], calls, .ok ())

/-- The observable outcome of one `_process_message` call. -/
structure MsgResult where
  acked : Bool
  requeued : Bool
  logs : List LogEvent
  calls : List JVal

/-- `_process_message` (rabbitmq_client.py lines 125-166): the whole body
runs inside `async with message.process()`, which acknowledges the
delivery when the body returns and otherwise rejects it without requeue
(`aio_pika` default `requeue=False`). -/
def process_message (handlers : List (String × HandlerSlot)) (raw : RawBody) :
    MsgResult :=
  match exceptClauses (tryProcess handlers raw) with
  | (logs, calls, .ok _) => ⟨true, false, logs, calls⟩
  | (logs, calls, .error _) => ⟨false, false, logs, calls⟩

/-- The `if not self._is_connected: await self.connect()` prelude shared by
`start_consuming` and `publish_message`: connect lazily when needed. -/
def lazyConnect (env : BrokerEnv) (st : RMQClient) :
    Except PyErr Unit × RMQClient :=
  if st.is_connected then (Except.ok (), st) else connect env st

/-- `start_consuming` (rabbitmq_client.py lines 168-177): connect lazily if
needed (a connect failure propagates), then require a declared queue and
raise `ValueError` without consuming when there is none, else issue
`queue.consume`. -/
def start_consuming (env : BrokerEnv) (st : RMQClient) :
    Except PyErr Unit × RMQClient :=
  match lazyConnect env st with
  | (.error e, st1) => (.error e, st1)
  | (.ok _, st1) =>
    if st1.queue then
      match env.consume_res with
      | .error e => (.error e, st1)
      | .ok _ => (.ok (), { st1 with consuming := true })
    else
      (.error (.valueError "Queue is not declared. Cannot start consuming."), st1)

/-- `publish_message` (rabbitmq_client.py lines 179-205): connect lazily if
needed, serialize the caller-supplied envelope, and hand it to
`exchange.publish` under the routing key.  The method performs no payload
or envelope validation of its own. -/
def publish_message (env : BrokerEnv) (st : RMQClient) (routing_key : String)
    (envelope : JVal) : Except PyErr Unit × RMQClient :=
  match lazyConnect env st with
  | (.error e, st1) => (.error e, st1)
  | (.ok _, st1) =>
    match env.publish_res with
    | .error e => (.error e, st1)
    | .ok _ => (.ok (), { st1 with published := st1.published ++ [(routing_key, envelope)] })

/-- One position of a character-shape pattern. -/
inductive PatC where
  | digit
  | hexd
  | lit (c : Char)

/-- Whether a character fits one pattern position (`hexd` is a lowercase
hexadecimal digit, as CPython renders UUIDs). -/
def fitsPat : PatC → Char → Bool
  | .digit, c => c.isDigit
  | .hexd, c => c.isDigit || ('a' ≤ c && c ≤ 'f')
  | .lit a, c => a == c

/-- Whether a character list matches a pattern position by position. -/
def matchPat : List PatC → List Char → Bool
  | [], [] => true
  | p :: ps, c :: cs => fitsPat p c && matchPat ps cs
  | _, _ => false

/-- The shape of a canonical textual UUID: five lowercase-hex runs of
lengths 8, 4, 4, 4 and 12 separated by hyphens. -/
def uuidPat : List PatC :=
  List.replicate 8 PatC.hexd ++ [PatC.lit '-'] ++ List.replicate 4 PatC.hexd ++
    [PatC.lit '-'] ++ List.replicate 4 PatC.hexd ++ [PatC.lit '-'] ++
    List.replicate 4 PatC.hexd ++ [PatC.lit '-'] ++ List.replicate 12 PatC.hexd

/-- Syntactic validity of a textual UUID. -/
def validUUID (s : String) : Bool := matchPat uuidPat s.data

/-- The shape of a UTC ISO-8601 instant with `Z` suffix, with or without a
fractional-second part of six digits. -/
def isoPat (withMicro : Bool) : List PatC :=
  List.replicate 4 PatC.digit ++ [PatC.lit '-'] ++ List.replicate 2 PatC.digit ++
    [PatC.lit '-'] ++ List.replicate 2 PatC.digit ++ [PatC.lit 'T'] ++
    List.replicate 2 PatC.digit ++ [PatC.lit ':'] ++ List.replicate 2 PatC.digit ++
    [PatC.lit ':'] ++ List.replicate 2 PatC.digit ++
    (if withMicro then [PatC.lit '.'] ++ List.replicate 6 PatC.digit else []) ++
    [PatC.lit 'Z']

/-- Syntactic validity of a UTC ISO-8601 instant carrying the `Z` suffix. -/
def validIsoZ (s : String) : Bool :=
  matchPat (isoPat false) s.data || matchPat (isoPat true) s.data

/-- The optional-field value `create_envelope` stores for an optional
string argument: present exactly when the argument is Python-truthy. -/
def optField (v : Option String) : Option JVal :=
  match v with
  | some s => if s = "" then none else some (JVal.str s)
  | none => none

/-- The outcome of the first (per-type) load attempt of
`get_message_schema`, including the cache it leaves behind. -/
def firstLoadOut (fs : FS) (contracts_dir : String) (cache : Cache)
    (domain message_type : String) : Except PyErr JVal × Cache × Bool :=
  cachedLoad fs cache (typeSchemaPath contracts_dir domain message_type)

/-- The outcome of the legacy-bundle load attempt of `get_message_schema`,
running on the cache left by the first attempt. -/
def bundleLoadOut (fs : FS) (contracts_dir : String) (cache : Cache)
    (domain message_type : String) : Except PyErr JVal × Cache × Bool :=
  cachedLoad fs (firstLoadOut fs contracts_dir cache domain message_type).2.1
    (bundleSchemaPath contracts_dir domain)

/-- Whether the per-type lookup path of `get_message_schema` succeeds. -/
def firstPathOk (fs : FS) (contracts_dir : String) (cache : Cache)
    (domain message_type : String) : Bool :=
  match (firstLoadOut fs contracts_dir cache domain message_type).1 with
  | .ok _ => true
  | .error _ => false

/-- The `definitions` table of the loaded legacy bundle (empty when the
bundle did not load as a JSON object carrying one). -/
def legacyDefs (fs : FS) (contracts_dir : String) (cache : Cache)
    (domain message_type : String) : JVal :=
  match (bundleLoadOut fs contracts_dir cache domain message_type).1 with
  | .ok (.obj fields) => (fields.lookup "definitions").getD (JVal.obj [])
  | _ => JVal.obj []

/-- Whether the legacy lookup path of `get_message_schema` succeeds: the
bundle loads and its `definitions` object has the exact-case type key. -/
def legacyPathOk (fs : FS) (contracts_dir : String) (cache : Cache)
    (domain message_type : String) : Bool :=
  match (bundleLoadOut fs contracts_dir cache domain message_type).1 with
  | .ok (.obj fields) =>
    match (fields.lookup "definitions").getD (JVal.obj []) with
    | .obj defs => defs.any (fun p => p.1 == message_type)
    | _ => false
  | _ => false

/-- A legacy bundle document on which the fallback path of
`get_message_schema` cannot raise an uncaught dynamic-typing error: the
document is a JSON object and its `definitions` entry (defaulting to the
empty object) is a JSON object. -/
def goodBundle (j : JVal) : Bool :=
  match j with
  | .obj fields =>
    match (fields.lookup "definitions").getD (JVal.obj []) with
    | .obj _ => true
    | _ => false
  | _ => false

/-- Whether an `Except` outcome is a raised `ValueError`. -/
def isValueErrorU (r : Except PyErr Unit) : Bool :=
  match r with
  | .error (.valueError _) => true
  | _ => false

/-- A fixture file system holding only the envelope schema. -/
def fsEnv : FS := fun p =>
  if p = pathJoin "contracts" "envelope.json" then FileRes.doc (JVal.obj [])
  else FileRes.missing

/-- A fixture evaluator for `jsonschema.validate` that accepts everything. -/
def jvOk : JValidate := fun _ _ => Except.ok ()

/-- A fixture UUID draw. -/
def u0 : U4 := ⟨0, 0, 0, 0, 0, 0⟩

/-- A second, distinct fixture UUID draw. -/
def u1 : U4 := ⟨1, 0, 0, 0, 0, 0⟩

/-- A fixture clock reading. -/
def t0 : PyDateTime := ⟨2024, 1, 2, 3, 4, 5, 6⟩

/-- A broker environment in which every operation succeeds. -/
def envAllOk : BrokerEnv :=
  ⟨Except.ok (), Except.ok (), Except.ok (), Except.ok (), Except.ok (),
    Except.ok (), Except.ok (), Except.ok ()⟩

/-- A broker environment whose connection establishment fails. -/
def envConnFail : BrokerEnv :=
  ⟨Except.error (PyErr.amqpError 7), Except.ok (), Except.ok (), Except.ok (),
    Except.ok (), Except.ok (), Except.ok (), Except.ok ()⟩

/-- A freshly constructed publish-only client (no queue, no routing key). -/
def stBase : RMQClient :=
  ⟨none, none, false, false, false, false, [], false, false, []⟩

/-- A client that has connected successfully without declaring a queue. -/
def stConn : RMQClient :=
  ⟨none, none, true, true, true, false, [], true, false, []⟩

/-- A fixture handler that always returns normally. -/
def handlerOk : Handler := fun _ => Except.ok ()

/-- A fixture handler that always raises. -/
def handlerRaise : Handler := fun _ => Except.error (PyErr.amqpError 99)

/-- The envelope `create_envelope` builds in the round-trip scenario of the
spec: message type `test_type`, data `{"test": "data"}`, no optional
fields. -/
def envC1 : JVal :=
  envelopeVal u0 t0 "test_type" (JVal.obj [("test", JVal.str "data")])
    none none none

/-- A fixture file system for schema resolution: the `mailing` domain has
no per-type file for `SuccessEmail`, and its legacy bundle carries a
`definitions` object with that type. -/
def fsLegacy : FS := fun p =>
  if p = bundleSchemaPath "contracts" "mailing" then
    FileRes.doc (JVal.obj [("definitions",
      JVal.obj [("SuccessEmail", JVal.obj [("type", JVal.str "object")])])])
  else FileRes.missing

/-- A fixture file system whose legacy bundle is valid JSON but not an
object, so the fallback path of `get_message_schema` trips over
`schema.get` at run time. -/
def fsBadBundle : FS := fun p =>
  if p = bundleSchemaPath "contracts" "mailing" then
    FileRes.doc (JVal.str "oops")
  else FileRes.missing

theorem natChars_length (b w n : Nat) : (natChars b w n).length = w := by
  induction w generalizing n with
  | zero => rfl
  | succ w ih => simp [natChars, ih]

theorem fitsPat_hexd_digitChar (d : Nat) (h : d < 16) :
    fitsPat PatC.hexd (digitChar d) = true := by
  interval_cases d <;> decide

theorem fitsPat_digit_digitChar (d : Nat) (h : d < 10) :
    fitsPat PatC.digit (digitChar d) = true := by
  interval_cases d <;> decide

theorem unDigit_digitChar (d : Nat) (h : d < 16) :
    unDigit (digitChar d) = d := by
  interval_cases d <;> decide

theorem natChars_fits (p : PatC) (b : Nat) (hb : 0 < b)
    (hp : ∀ d, d < b → fitsPat p (digitChar d) = true) :
    ∀ w n, ∀ c ∈ natChars b w n, fitsPat p c = true := by
  intro w
  induction w with
  | zero => intro n c hc; simp [natChars] at hc
  | succ w ih =>
    intro n c hc
    simp only [natChars, List.mem_append, List.mem_singleton] at hc
    rcases hc with hc | hc
    · exact ih (n / b) c hc
    · subst hc; exact hp (n % b) (Nat.mod_lt n hb)

theorem unChars_natChars (b : Nat) (hb : 2 ≤ b) (hb16 : b ≤ 16) :
    ∀ w n, unChars b (natChars b w n) = n % b ^ w := by
  intro w
  induction w with
  | zero => intro n; simp [natChars, unChars, Nat.mod_one]
  | succ w ih =>
    intro n
    have hrec := ih (n / b)
    have hdig : unDigit (digitChar (n % b)) = n % b :=
      unDigit_digitChar (n % b) (lt_of_lt_of_le (Nat.mod_lt n (by omega)) hb16)
    have hfold : unChars b (natChars b (w + 1) n) =
        unChars b (natChars b w (n / b)) * b + unDigit (digitChar (n % b)) := by
      simp [natChars, unChars, List.foldl_append]
    rw [hfold, hrec, hdig]
    have hpow : b ^ (w + 1) = b * b ^ w := by
      rw [pow_succ]; ring
    rw [hpow, Nat.mod_mul]
    ring

theorem natChars_inj (b w n m : Nat) (hb : 2 ≤ b) (hb16 : b ≤ 16)
    (hn : n < b ^ w) (hm : m < b ^ w) (h : natChars b w n = natChars b w m) :
    n = m := by
  have h1 := unChars_natChars b hb hb16 w n
  have h2 := unChars_natChars b hb hb16 w m
  rw [h] at h1
  rw [h2] at h1
  rw [Nat.mod_eq_of_lt hn, Nat.mod_eq_of_lt hm] at h1
  omega

theorem matchPat_nil_right (s : List Char) (h : matchPat [] s = true) :
    s = [] := by
  cases s with
  | nil => rfl
  | cons c cs => simp [matchPat] at h

theorem matchPat_append (p1 p2 : List PatC) (s1 s2 : List Char)
    (h1 : matchPat p1 s1 = true) (h2 : matchPat p2 s2 = true) :
    matchPat (p1 ++ p2) (s1 ++ s2) = true := by
  induction p1 generalizing s1 with
  | nil =>
    have := matchPat_nil_right s1 h1
    subst this
    simpa using h2
  | cons p ps ih =>
    cases s1 with
    | nil => simp [matchPat] at h1
    | cons c cs =>
      simp only [matchPat, Bool.and_eq_true] at h1
      simp only [List.cons_append, matchPat, Bool.and_eq_true]
      exact ⟨h1.1, ih cs h1.2⟩

theorem matchPat_replicate (p : PatC) (l : List Char)
    (h : ∀ c ∈ l, fitsPat p c = true) :
    matchPat (List.replicate l.length p) l = true := by
  induction l with
  | nil => rfl
  | cons c cs ih =>
    simp only [List.length_cons, List.replicate_succ, matchPat, Bool.and_eq_true]
    exact ⟨h c (by simp), ih (fun x hx => h x (by simp [hx]))⟩

theorem matchPat_natChars_hex (w n : Nat) :
    matchPat (List.replicate w PatC.hexd) (natChars 16 w n) = true := by
  have := matchPat_replicate PatC.hexd (natChars 16 w n)
    (natChars_fits PatC.hexd 16 (by omega) fitsPat_hexd_digitChar w n)
  rwa [natChars_length] at this

theorem matchPat_natChars_digit (w n : Nat) :
    matchPat (List.replicate w PatC.digit) (natChars 10 w n) = true := by
  have h10 : ∀ d, d < 10 → fitsPat PatC.digit (digitChar d) = true :=
    fitsPat_digit_digitChar
  have := matchPat_replicate PatC.digit (natChars 10 w n)
    (natChars_fits PatC.digit 10 (by omega) h10 w n)
  rwa [natChars_length] at this

theorem matchPat_cons (p : PatC) (ps : List PatC) (c : Char) (cs : List Char)
    (h1 : fitsPat p c = true) (h2 : matchPat ps cs = true) :
    matchPat (p :: ps) (c :: cs) = true := by
  simp [matchPat, h1, h2]

theorem validUUID_formatUUID4 (u : U4) (hu : u.inBounds) :
    validUUID (formatUUID4 u) = true := by
  have hv : 8 + u.v < 16 := by
    have := hu.2.2.2.1
    omega
  show matchPat uuidPat (uuidChars u) = true
  unfold uuidPat uuidChars
  simp only [List.append_assoc, List.cons_append, List.singleton_append]
  apply matchPat_append _ _ _ _ (matchPat_natChars_hex 8 u.a)
  apply matchPat_cons _ _ _ _ (by decide)
  apply matchPat_append _ _ _ _ (matchPat_natChars_hex 4 u.b)
  apply matchPat_cons _ _ _ _ (by decide)
  rw [show List.replicate 4 PatC.hexd = PatC.hexd :: List.replicate 3 PatC.hexd
    from rfl]
  simp only [List.cons_append, List.nil_append]
  apply matchPat_cons _ _ _ _ (by decide)
  apply matchPat_append _ _ _ _ (matchPat_natChars_hex 3 u.c)
  apply matchPat_cons _ _ _ _ (by decide)
  apply matchPat_cons _ _ _ _ (fitsPat_hexd_digitChar (8 + u.v) hv)
  apply matchPat_append _ _ _ _ (matchPat_natChars_hex 3 u.d)
  apply matchPat_cons _ _ _ _ (by decide)
  exact matchPat_natChars_hex 12 u.e

theorem formatUUID4_inj (u u' : U4) (hu : u.inBounds) (hu' : u'.inBounds)
    (h : formatUUID4 u = formatUUID4 u') : u = u' := by
  obtain ⟨a, b, c, v, d, e⟩ := u
  obtain ⟨a', b', c', v', d', e'⟩ := u'
  simp only [U4.inBounds] at hu hu'
  obtain ⟨ha1, hb1, hc1, hv1, hd1, he1⟩ := hu
  obtain ⟨ha2, hb2, hc2, hv2, hd2, he2⟩ := hu'
  replace h := congrArg String.data h
  unfold formatUUID4 uuidChars at h
  simp only [List.append_assoc, List.cons_append, List.nil_append] at h
  obtain ⟨ha, h⟩ := List.append_inj h (by simp [natChars_length])
  simp only [List.cons.injEq, true_and] at h
  obtain ⟨hb, h⟩ := List.append_inj h (by simp [natChars_length])
  simp only [List.cons.injEq, true_and] at h
  obtain ⟨hc, h⟩ := List.append_inj h (by simp [natChars_length])
  simp only [List.cons.injEq, true_and] at h
  obtain ⟨hvd, h⟩ := h
  obtain ⟨hd, h⟩ := List.append_inj h (by simp [natChars_length])
  simp only [List.cons.injEq, true_and] at h
  have hveq : v = v' := by
    have h1 := congrArg unDigit hvd
    rw [unDigit_digitChar (8 + v) (by omega),
      unDigit_digitChar (8 + v') (by omega)] at h1
    omega
  have haeq : a = a' := natChars_inj 16 8 a a' (by omega) (by omega) ha1 ha2 ha
  have hbeq : b = b' := natChars_inj 16 4 b b' (by omega) (by omega) hb1 hb2 hb
  have hceq : c = c' := natChars_inj 16 3 c c' (by omega) (by omega) hc1 hc2 hc
  have hdeq : d = d' := natChars_inj 16 3 d d' (by omega) (by omega) hd1 hd2 hd
  have heeq : e = e' := natChars_inj 16 12 e e' (by omega) (by omega) he1 he2 h
  simp [haeq, hbeq, hceq, hveq, hdeq, heeq]

theorem validIsoZ_isoZ (t : PyDateTime) : validIsoZ (isoZ t) = true := by
  have hdata : (isoZ t).data = isoChars t ++ ['Z'] := rfl
  simp only [validIsoZ, Bool.or_eq_true, hdata]
  by_cases hms : t.microsecond = 0
  · left
    unfold isoPat isoChars
    simp only [hms, if_pos, if_neg, Bool.false_eq_true, not_false_iff,
      ite_true, ite_false, List.append_assoc, List.cons_append,
      List.append_nil, List.nil_append, List.singleton_append]
    apply matchPat_append _ _ _ _ (matchPat_natChars_digit 4 t.year)
    apply matchPat_cons _ _ _ _ (by decide)
    apply matchPat_append _ _ _ _ (matchPat_natChars_digit 2 t.month)
    apply matchPat_cons _ _ _ _ (by decide)
    apply matchPat_append _ _ _ _ (matchPat_natChars_digit 2 t.day)
    apply matchPat_cons _ _ _ _ (by decide)
    apply matchPat_append _ _ _ _ (matchPat_natChars_digit 2 t.hour)
    apply matchPat_cons _ _ _ _ (by decide)
    apply matchPat_append _ _ _ _ (matchPat_natChars_digit 2 t.minute)
    apply matchPat_cons _ _ _ _ (by decide)
    apply matchPat_append _ _ _ _ (matchPat_natChars_digit 2 t.second)
    decide
  · right
    unfold isoPat isoChars
    simp only [hms, Bool.false_eq_true, not_false_iff, ite_true, ite_false,
      if_neg, List.append_assoc, List.cons_append, List.append_nil,
      List.nil_append, List.singleton_append]
    apply matchPat_append _ _ _ _ (matchPat_natChars_digit 4 t.year)
    apply matchPat_cons _ _ _ _ (by decide)
    apply matchPat_append _ _ _ _ (matchPat_natChars_digit 2 t.month)
    apply matchPat_cons _ _ _ _ (by decide)
    apply matchPat_append _ _ _ _ (matchPat_natChars_digit 2 t.day)
    apply matchPat_cons _ _ _ _ (by decide)
    apply matchPat_append _ _ _ _ (matchPat_natChars_digit 2 t.hour)
    apply matchPat_cons _ _ _ _ (by decide)
    apply matchPat_append _ _ _ _ (matchPat_natChars_digit 2 t.minute)
    apply matchPat_cons _ _ _ _ (by decide)
    apply matchPat_append _ _ _ _ (matchPat_natChars_digit 2 t.second)
    apply matchPat_cons _ _ _ _ (by decide)
    apply matchPat_append _ _ _ _ (matchPat_natChars_digit 6 t.microsecond)
    decide

theorem lookupAppendNone {α β : Type} [BEq α] (l1 l2 : List (α × β)) (k : α)
    (h : l1.lookup k = none) : (l1 ++ l2).lookup k = l2.lookup k := by
  induction l1 with
  | nil => rfl
  | cons p t ih =>
    obtain ⟨a, b⟩ := p
    simp only [List.lookup] at h
    simp only [List.cons_append, List.lookup]
    cases hk : k == a with
    | true => simp [hk] at h
    | false =>
      simp only [hk] at h
      exact ih h

theorem lookupAppendSome {α β : Type} [BEq α] (l1 l2 : List (α × β)) (k : α)
    (v : β) (h : l1.lookup k = some v) : (l1 ++ l2).lookup k = some v := by
  induction l1 with
  | nil => simp [List.lookup] at h
  | cons p t ih =>
    obtain ⟨a, b⟩ := p
    simp only [List.lookup] at h
    simp only [List.cons_append, List.lookup]
    cases hk : k == a with
    | true => simp only [hk] at h ⊢; exact h
    | false =>
      simp only [hk] at h
      exact ih h

theorem optEntry_lookup_self (key : String) (v : Option String) :
    (optEntry key v).lookup key = optField v := by
  rcases v with _ | s
  · rfl
  · by_cases h : s = "" <;> simp [optEntry, optField, h, List.lookup]

theorem optEntry_lookup_ne (key k : String) (v : Option String)
    (h : (k == key) = false) : (optEntry key v).lookup k = none := by
  rcases v with _ | s
  · rfl
  · by_cases hs : s = "" <;> simp [optEntry, h, hs, List.lookup]

theorem metaField_correlationId (u : U4) (now : PyDateTime)
    (mt : String) (data : JVal) (cid caid snd : Option String) :
    metaField (envelopeVal u now mt data cid caid snd) "correlationId" =
      optField cid := by
  show (envelopeMeta u now mt data cid caid snd).lookup "correlationId" = _
  unfold envelopeMeta
  simp only [List.append_assoc]
  rw [lookupAppendNone _ _ _ (by rfl)]
  rcases hoc : (optEntry "correlationId" cid).lookup "correlationId" with _ | w
  · rw [lookupAppendNone _ _ _ hoc,
      lookupAppendNone _ _ _ (optEntry_lookup_ne _ _ _ (by decide)),
      optEntry_lookup_ne _ _ _ (by decide)]
    rw [optEntry_lookup_self] at hoc
    exact hoc.symm
  · rw [lookupAppendSome _ _ _ _ hoc]
    rw [optEntry_lookup_self] at hoc
    exact hoc.symm

theorem metaField_causationId (u : U4) (now : PyDateTime)
    (mt : String) (data : JVal) (cid caid snd : Option String) :
    metaField (envelopeVal u now mt data cid caid snd) "causationId" =
      optField caid := by
  show (envelopeMeta u now mt data cid caid snd).lookup "causationId" = _
  unfold envelopeMeta
  simp only [List.append_assoc]
  rw [lookupAppendNone _ _ _ (by rfl),
    lookupAppendNone _ _ _ (optEntry_lookup_ne _ _ _ (by decide))]
  rcases hoc : (optEntry "causationId" caid).lookup "causationId" with _ | w
  · rw [lookupAppendNone _ _ _ hoc, optEntry_lookup_ne _ _ _ (by decide)]
    rw [optEntry_lookup_self] at hoc
    exact hoc.symm
  · rw [lookupAppendSome _ _ _ _ hoc]
    rw [optEntry_lookup_self] at hoc
    exact hoc.symm

theorem metaField_sender (u : U4) (now : PyDateTime)
    (mt : String) (data : JVal) (cid caid snd : Option String) :
    metaField (envelopeVal u now mt data cid caid snd) "sender" =
      optField snd := by
  show (envelopeMeta u now mt data cid caid snd).lookup "sender" = _
  unfold envelopeMeta
  simp only [List.append_assoc]
  rw [lookupAppendNone _ _ _ (by rfl),
    lookupAppendNone _ _ _ (optEntry_lookup_ne _ _ _ (by decide)),
    lookupAppendNone _ _ _ (optEntry_lookup_ne _ _ _ (by decide))]
  exact optEntry_lookup_self "sender" snd

theorem cachedLoad_error (fs : FS) (cache : Cache) (p : String) (e : PyErr)
    (c : Cache) (r : Bool) (h : cachedLoad fs cache p = (Except.error e, c, r)) :
    c = cache ∧ cache.lookup p = none ∧ r = true := by
  unfold cachedLoad at h
  rcases hl : cache.lookup p with _ | j
  · rw [hl] at h
    rcases hf : fs p with _ | _ | j <;> rw [hf] at h <;>
      simp only [Prod.mk.injEq] at h
    · exact ⟨h.2.1.symm, rfl, h.2.2.symm⟩
    · exact ⟨h.2.1.symm, rfl, h.2.2.symm⟩
    · exact absurd h.1 (by simp)
  · rw [hl] at h
    simp only [Prod.mk.injEq] at h
    exact absurd h.1 (by simp)

theorem cachedLoad_ok_source (fs : FS) (cache : Cache) (p : String) (j : JVal)
    (c : Cache) (r : Bool) (h : cachedLoad fs cache p = (Except.ok j, c, r)) :
    cache.lookup p = some j ∨ fs p = FileRes.doc j := by
  unfold cachedLoad at h
  rcases hl : cache.lookup p with _ | j0
  · rw [hl] at h
    rcases hf : fs p with _ | _ | j1 <;> rw [hf] at h <;>
      simp only [Prod.mk.injEq] at h
    · exact absurd h.1 (by simp)
    · exact absurd h.1 (by simp)
    · right
      have hj : j1 = j := by simpa using h.1
      rw [hj]
  · rw [hl] at h
    simp only [Prod.mk.injEq] at h
    left
    have hj : j0 = j := by simpa using h.1
    rw [hj]

theorem lookup_of_any {β : Type} (l : List (String × β)) (k : String)
    (h : l.any (fun p => p.1 == k) = true) : ∃ v, l.lookup k = some v := by
  induction l with
  | nil => simp at h
  | cons p t ih =>
    obtain ⟨a, b⟩ := p
    simp only [List.any_cons, Bool.or_eq_true] at h
    rcases h with h | h
    · refine ⟨b, ?_⟩
      simp only [List.lookup]
      have : (k == a) = true := by
        simp only [beq_iff_eq] at h ⊢
        exact h.symm
      rw [this]
    · rcases ih h with ⟨v, hv⟩
      by_cases hk : (k == a) = true
      · exact ⟨b, by simp [List.lookup, hk]⟩
      · refine ⟨v, ?_⟩
        simp only [List.lookup]
        rw [Bool.eq_false_iff.mpr hk]
        exact hv

/-- C4: after a successful load, a second resolution of the same resolved
path returns the identical cached document without reading any file (even
a changed one); a failed load inserts nothing, so the path is still absent
from the cache and the next call opens the file again. -/
theorem claim_C4_cache_idempotent (fs fs2 : FS) (cache : Cache) (path : String) :
    (∀ j c r, cachedLoad fs cache path = (Except.ok j, c, r) →
      cachedLoad fs2 c path = (Except.ok j, c, false)) ∧
    (∀ e c r, cachedLoad fs cache path = (Except.error e, c, r) →
      c = cache ∧ cache.lookup path = none ∧
      (cachedLoad fs2 cache path).2.2 = true) := by
  constructor
  · intro j c r h
    unfold cachedLoad at h
    rcases hl : cache.lookup path with _ | j0
    · rw [hl] at h
      rcases hf : fs path with _ | _ | j1 <;> rw [hf] at h <;>
        simp only [Prod.mk.injEq] at h
      · exact absurd h.1 (by simp)
      · exact absurd h.1 (by simp)
      · have hj : j1 = j := by simpa using h.1
        subst hj
        rw [← h.2.1]
        unfold cachedLoad
        simp [List.lookup]
    · rw [hl] at h
      simp only [Prod.mk.injEq] at h
      have hj : j0 = j := by simpa using h.1
      subst hj
      rw [← h.2.1]
      unfold cachedLoad
      rw [hl]
  · intro e c r h
    obtain ⟨hc, hl, hr⟩ := cachedLoad_error fs cache path e c r h
    refine ⟨hc, hl, ?_⟩
    unfold cachedLoad
    rw [hl]
    rcases fs2 path <;> rfl

/-- Witness for C4 at a concrete cache state: re-resolving a cached path
returns the cached document with no file read. -/
theorem claim_C4_witness :
    cachedLoad fsEnv [(pathJoin "contracts" "envelope.json", JVal.obj [])]
        (pathJoin "contracts" "envelope.json") =
      (Except.ok (JVal.obj []),
        [(pathJoin "contracts" "envelope.json", JVal.obj [])], false) :=
  (claim_C4_cache_idempotent fsEnv fsEnv [] (pathJoin "contracts" "envelope.json")).1
    (JVal.obj []) _ true rfl

theorem optField_isSome (v : Option String) :
    (optField v).isSome = pyTruthy v := by
  rcases v with _ | s
  · rfl
  · by_cases h : s = "" <;> simp [optField, pyTruthy, h]

theorem create_envelope_ok (fs : FS) (jv : JValidate) (dir : String)
    (cache : Cache) (u : U4) (now : PyDateTime) (mt : String) (data : JVal)
    (cid caid snd : Option String) (e : JVal) (c : Cache)
    (h : create_envelope fs jv dir cache u now mt data cid caid snd =
      (Except.ok e, c)) :
    e = envelopeVal u now mt data cid caid snd := by
  unfold create_envelope at h
  split at h
  · simp only [Prod.mk.injEq] at h
    exact absurd h.1 (by simp)
  · split at h
    · simp only [Prod.mk.injEq] at h
      exact absurd h.1 (by simp)
    · simp only [Prod.mk.injEq, Except.ok.injEq] at h
      exact h.1.symm

/-- C5 (counterexample): calling `create_envelope` with the empty string
supplied as `correlation_id` succeeds but produces an envelope with no
`correlationId` field, although the argument was supplied — presence is
decided by truthiness, not by whether the argument was passed. -/
theorem claim_C5_counterexample :
    (create_envelope fsEnv jvOk "contracts" [] u0 t0 "TestType" (JVal.obj [])
        (some "") none none).1 =
      Except.ok (envelopeVal u0 t0 "TestType" (JVal.obj []) (some "") none
        none) ∧
    metaField (envelopeVal u0 t0 "TestType" (JVal.obj []) (some "") none none)
      "correlationId" = none := by
  constructor <;> rfl

/-- C5 (amended): an envelope returned by `create_envelope` carries
`correlationId` / `causationId` / `sender` exactly when the corresponding
argument was supplied with a Python-truthy (non-None, non-empty) value;
an omitted or falsy optional field is entirely absent, never a null or
empty placeholder, and a present field holds exactly the supplied string. -/
theorem claim_C5_optional_fields (fs : FS) (jv : JValidate) (dir : String)
    (cache : Cache) (u : U4) (now : PyDateTime) (mt : String) (data : JVal)
    (cid caid snd : Option String) (e : JVal) (c : Cache)
    (h : create_envelope fs jv dir cache u now mt data cid caid snd =
      (Except.ok e, c)) :
    metaField e "correlationId" = optField cid ∧
    metaField e "causationId" = optField caid ∧
    metaField e "sender" = optField snd ∧
    (metaField e "correlationId").isSome = pyTruthy cid ∧
    (metaField e "causationId").isSome = pyTruthy caid ∧
    (metaField e "sender").isSome = pyTruthy snd := by
  have he := create_envelope_ok fs jv dir cache u now mt data cid caid snd e c h
  subst he
  refine ⟨metaField_correlationId u now mt data cid caid snd,
    metaField_causationId u now mt data cid caid snd,
    metaField_sender u now mt data cid caid snd, ?_, ?_, ?_⟩
  · rw [metaField_correlationId u now mt data cid caid snd, optField_isSome]
  · rw [metaField_causationId u now mt data cid caid snd, optField_isSome]
  · rw [metaField_sender u now mt data cid caid snd, optField_isSome]

/-- Witness for the amended C5 at a concrete call: a truthy correlation id
is present with its value, a falsy (empty) sender is entirely absent. -/
theorem claim_C5_witness :
    metaField (envelopeVal u0 t0 "T" JVal.null (some "corr-1") none (some ""))
        "correlationId" = some (JVal.str "corr-1") ∧
    metaField (envelopeVal u0 t0 "T" JVal.null (some "corr-1") none (some ""))
        "sender" = none := by
  have h := claim_C5_optional_fields fsEnv jvOk "contracts" [] u0 t0 "T"
    JVal.null (some "corr-1") none (some "") _ _ rfl
  exact ⟨h.1, h.2.2.1⟩

/-- C6: every envelope returned by `create_envelope` has a syntactically
valid UUID `messageId` (fresh draws give distinct ids across calls, even
with otherwise identical inputs), `version` exactly `"1.0"`, `messageType`
equal to the argument, and a UTC ISO-8601 `timestamp` ending in `Z`. -/
theorem claim_C6_envelope_metadata (fs : FS) (jv : JValidate) (dir : String)
    (cache cache2 : Cache) (u u' : U4) (now now' : PyDateTime)
    (mt mt' : String) (data data' : JVal)
    (cid caid snd cid' caid' snd' : Option String) (e e' : JVal)
    (c c' : Cache) (hu : u.inBounds) (hu' : u'.inBounds) (hne : u ≠ u')
    (h : create_envelope fs jv dir cache u now mt data cid caid snd =
      (Except.ok e, c))
    (h' : create_envelope fs jv dir cache2 u' now' mt' data' cid' caid' snd' =
      (Except.ok e', c')) :
    metaField e "messageId" = some (JVal.str (formatUUID4 u)) ∧
    validUUID (formatUUID4 u) = true ∧
    metaField e "version" = some (JVal.str "1.0") ∧
    metaField e "messageType" = some (JVal.str mt) ∧
    metaField e "timestamp" = some (JVal.str (isoZ now)) ∧
    validIsoZ (isoZ now) = true ∧
    metaField e' "messageId" = some (JVal.str (formatUUID4 u')) ∧
    metaField e "messageId" ≠ metaField e' "messageId" := by
  have he := create_envelope_ok fs jv dir cache u now mt data cid caid snd e c h
  have he' := create_envelope_ok fs jv dir cache2 u' now' mt' data' cid' caid'
    snd' e' c' h'
  subst he
  subst he'
  refine ⟨rfl, validUUID_formatUUID4 u hu, rfl, rfl, rfl, validIsoZ_isoZ now,
    rfl, ?_⟩
  intro heq
  have hid : formatUUID4 u = formatUUID4 u' := by
    have h1 : metaField (envelopeVal u now mt data cid caid snd) "messageId" =
        some (JVal.str (formatUUID4 u)) := rfl
    have h2 : metaField (envelopeVal u' now' mt' data' cid' caid' snd')
        "messageId" = some (JVal.str (formatUUID4 u')) := rfl
    rw [h1, h2] at heq
    simpa using heq
  exact hne (formatUUID4_inj u u' hu hu' hid)

/-- Witness for C6 at two concrete calls with distinct draws. -/
theorem claim_C6_witness :
    validUUID (formatUUID4 u0) = true ∧
    metaField (envelopeVal u0 t0 "T" JVal.null none none none) "messageId" ≠
      metaField (envelopeVal u1 t0 "T" JVal.null none none none)
        "messageId" := by
  have h := claim_C6_envelope_metadata fsEnv jvOk "contracts" [] [] u0 u1 t0 t0
    "T" "T" JVal.null JVal.null none none none none none none _ _ _ _
    (by decide) (by decide) (by decide) rfl rfl
  exact ⟨h.2.1, h.2.2.2.2.2.2.2⟩

theorem exceptClauses_res (out : List LogEvent × List JVal × Except PyErr Unit) :
    (exceptClauses out).2.2 = Except.ok () := by
  obtain ⟨l, cs, res⟩ := out
  rcases res with e | u
  · rcases e <;> rfl
  · rfl

theorem exceptClauses_calls (out : List LogEvent × List JVal × Except PyErr Unit) :
    (exceptClauses out).2.1 = out.2.1 := by
  obtain ⟨l, cs, res⟩ := out
  rcases res with e | u
  · rcases e <;> rfl
  · rfl

theorem process_message_shape (handlers : List (String × HandlerSlot))
    (raw : RawBody) :
    (process_message handlers raw).acked = true ∧
    (process_message handlers raw).requeued = false ∧
    (process_message handlers raw).logs =
      (exceptClauses (tryProcess handlers raw)).1 ∧
    (process_message handlers raw).calls =
      (exceptClauses (tryProcess handlers raw)).2.1 := by
  unfold process_message
  rcases hout : exceptClauses (tryProcess handlers raw) with ⟨l, cs, res⟩
  have hres := exceptClauses_res (tryProcess handlers raw)
  rw [hout] at hres
  dsimp only at hres
  subst hres
  exact ⟨rfl, rfl, rfl, rfl⟩

theorem tryProcess_calls_le (handlers : List (String × HandlerSlot))
    (raw : RawBody) : (tryProcess handlers raw).2.1.length ≤ 1 := by
  unfold tryProcess
  rcases raw with _ | _ | j
  · simp
  · simp
  · repeat' split
    all_goals simp

/-- C7: every delivery is acknowledged and never requeued, whatever the
outcome: on decode or parse failure, a missing `metadata` key, a missing
or falsy `messageType`, an unregistered (or falsy) handler, or a missing
payload, the error is logged, no exception escapes, and no handler runs;
when the handler itself raises, it ran exactly once and the delivery is
still acknowledged. -/
theorem claim_C7_always_ack (handlers : List (String × HandlerSlot))
    (raw : RawBody) :
    (process_message handlers raw).acked = true ∧
    (process_message handlers raw).requeued = false ∧
    (process_message handlers raw).calls.length ≤ 1 ∧
    (raw = RawBody.undecodable → (process_message handlers raw).calls = [] ∧
      (process_message handlers raw).logs = [LogEvent.errProcessing]) ∧
    (raw = RawBody.unparsable → (process_message handlers raw).calls = [] ∧
      (process_message handlers raw).logs = [LogEvent.errDecodeFailure]) ∧
    (∀ j, raw = RawBody.parsed j → pyIn "metadata" j = Except.ok false →
      (process_message handlers raw).calls = [] ∧
      (process_message handlers raw).logs = [LogEvent.errNoMetadata]) ∧
    (∀ j m v, raw = RawBody.parsed j → pyIn "metadata" j = Except.ok true →
      pyGetD j "metadata" (JVal.obj []) = Except.ok m →
      pyGetD m "messageType" JVal.null = Except.ok v → pyTruthyJ v = false →
      (process_message handlers raw).calls = [] ∧
      (process_message handlers raw).logs = [LogEvent.errNoMessageType]) ∧
    (∀ j m v, raw = RawBody.parsed j → pyIn "metadata" j = Except.ok true →
      pyGetD j "metadata" (JVal.obj []) = Except.ok m →
      pyGetD m "messageType" JVal.null = Except.ok v → pyTruthyJ v = true →
      (handlerFor handlers v = Except.ok none ∨
        handlerFor handlers v = Except.ok (some none)) →
      (process_message handlers raw).calls = [] ∧
      (process_message handlers raw).logs = [LogEvent.warnNoHandler]) ∧
    (∀ j m v f, raw = RawBody.parsed j → pyIn "metadata" j = Except.ok true →
      pyGetD j "metadata" (JVal.obj []) = Except.ok m →
      pyGetD m "messageType" JVal.null = Except.ok v → pyTruthyJ v = true →
      handlerFor handlers v = Except.ok (some (some f)) →
      pyGetD j "payload" JVal.null = Except.ok JVal.null →
      (process_message handlers raw).calls = [] ∧
      (process_message handlers raw).logs = [LogEvent.errNoPayload]) ∧
    (∀ j m v f p er, raw = RawBody.parsed j →
      pyIn "metadata" j = Except.ok true →
      pyGetD j "metadata" (JVal.obj []) = Except.ok m →
      pyGetD m "messageType" JVal.null = Except.ok v → pyTruthyJ v = true →
      handlerFor handlers v = Except.ok (some (some f)) →
      pyGetD j "payload" JVal.null = Except.ok p → p ≠ JVal.null →
      f p = Except.error er →
      (process_message handlers raw).calls = [p]) := by
  obtain ⟨hack, hreq, hlogs, hcalls⟩ := process_message_shape handlers raw
  refine ⟨hack, hreq, ?_, ?_, ?_, ?_, ?_, ?_, ?_, ?_⟩
  · rw [hcalls, exceptClauses_calls]
    exact tryProcess_calls_le handlers raw
  · intro hr
    subst hr
    rw [hcalls, hlogs]
    exact ⟨rfl, rfl⟩
  · intro hr
    subst hr
    rw [hcalls, hlogs]
    exact ⟨rfl, rfl⟩
  · intro j hr hmeta
    subst hr
    rw [hcalls, hlogs]
    simp [tryProcess, exceptClauses, hmeta]
  · intro j m v hr h1 h2 h3 h4
    subst hr
    rw [hcalls, hlogs]
    simp [tryProcess, exceptClauses, h1, h2, h3, h4]
  · intro j m v hr h1 h2 h3 h4 h5
    subst hr
    rw [hcalls, hlogs]
    rcases h5 with h5 | h5 <;>
      simp [tryProcess, exceptClauses, h1, h2, h3, h4, h5]
  · intro j m v f hr h1 h2 h3 h4 h5 h6
    subst hr
    rw [hcalls, hlogs]
    simp [tryProcess, exceptClauses, h1, h2, h3, h4, h5, h6]
  · intro j m v f p er hr h1 h2 h3 h4 h5 h6 h7 h8
    subst hr
    rw [hcalls, exceptClauses_calls]
    rcases p with _ | b | n | s | xs | fields
    · exact absurd rfl h7
    all_goals simp [tryProcess, h1, h2, h3, h4, h5, h6, h8]

/-- Witness for C7: a delivery whose body is not valid JSON is
acknowledged with no handler invocation. -/
theorem claim_C7_witness :
    (process_message [] RawBody.unparsable).acked = true ∧
    (process_message [] RawBody.unparsable).calls = [] := by
  have h := claim_C7_always_ack [] RawBody.unparsable
  exact ⟨h.1, (h.2.2.2.2.1 rfl).1⟩


theorem connect_consuming (env : BrokerEnv) (st : RMQClient) :
    (connect env st).2.consuming = st.consuming := by
  unfold connect
  dsimp only
  repeat' split
  all_goals rfl

theorem lazyConnect_consuming (env : BrokerEnv) (st : RMQClient) :
    (lazyConnect env st).2.consuming = st.consuming := by
  unfold lazyConnect
  split
  · rfl
  · exact connect_consuming env st

/-- C8: whenever any step of `connect` fails, the first failing step's
error is re-raised to the caller and the client is left with
`_is_connected` False, so no topology is treated as usable after a failed
connect. -/
theorem claim_C8_connect_failure (env : BrokerEnv) (st : RMQClient)
    (e : PyErr)
    (h : connectFirstErr env st.queue_name st.routing_key = some e) :
    (connect env st).1 = Except.error e ∧
    (connect env st).2.is_connected = false := by
  unfold connectFirstErr at h
  unfold connect
  dsimp only
  repeat' split at h
  all_goals simp_all

/-- Witness for C8: a failed connection establishment surfaces the broker
error and leaves the client disconnected. -/
theorem claim_C8_witness :
    (connect envConnFail stBase).1 = Except.error (PyErr.amqpError 7) ∧
    (connect envConnFail stBase).2.is_connected = false :=
  claim_C8_connect_failure envConnFail stBase (PyErr.amqpError 7) rfl

/-- C9 (counterexample): with no queue configured and the client not yet
connected, a failing lazy connect makes `start_consuming` fail with the
broker's connection error, not with the `ValueError`; the claim that it
fails with `NoQueueDeclared` whenever no queue was configured is false. -/
theorem claim_C9_counterexample :
    stBase.queue_name = none ∧ stBase.queue = false ∧
    (start_consuming envConnFail stBase).1 =
      Except.error (PyErr.amqpError 7) ∧
    isValueErrorU (start_consuming envConnFail stBase).1 = false ∧
    (start_consuming envConnFail stBase).2.consuming = false :=
  ⟨rfl, rfl, rfl, rfl, rfl⟩

/-- C9 (amended): provided the lazy connect performed for a disconnected
client succeeds (a connect failure propagates instead), `start_consuming`
raises the `ValueError` exactly in the no-queue case and consumption does
not begin; with a queue declared (and the broker accepting the consume
call) it starts consuming. -/
theorem claim_C9_start_consuming (env : BrokerEnv) (st : RMQClient)
    (hconn : (lazyConnect env st).1 = Except.ok ())
    (hcons : env.consume_res = Except.ok ()) :
    ((lazyConnect env st).2.queue = false →
      (start_consuming env st).1 = Except.error (PyErr.valueError
        "Queue is not declared. Cannot start consuming.") ∧
      (start_consuming env st).2.consuming = st.consuming) ∧
    ((lazyConnect env st).2.queue = true →
      (start_consuming env st).1 = Except.ok () ∧
      (start_consuming env st).2.consuming = true) := by
  have hpres := lazyConnect_consuming env st
  unfold start_consuming
  rcases hc : lazyConnect env st with ⟨cres, cst⟩
  try rw [hc] at hconn
  try rw [hc] at hpres
  dsimp only at hconn hpres ⊢
  subst hconn
  constructor
  · intro hq
    simp [hq, hpres]
  · intro hq
    simp [hq, hcons]

/-- Witness for C9 at a concrete state: a connected client with a declared
queue starts consuming. -/
theorem claim_C9_witness :
    (start_consuming envAllOk
      ⟨some "q", none, true, true, true, true, [], true, false, []⟩).1 =
      Except.ok () ∧
    (start_consuming envAllOk
      ⟨some "q", none, true, true, true, true, [], true, false, []⟩).2.consuming =
      true := by
  have h := claim_C9_start_consuming envAllOk
    ⟨some "q", none, true, true, true, true, [], true, false, []⟩ rfl rfl
  exact h.2 rfl

/-- C10: `register_handler` accepts a falsy (None) handler without failing
fast, and a delivery whose message type resolves to that most recently
registered falsy handler is treated like an unroutable message: a warning
is logged, no handler runs, nothing is raised, and the delivery is
acknowledged and not requeued. -/
theorem claim_C10_falsy_handler (st : RMQClient) (mt : String) (p : JVal)
    (hmt : mt ≠ "") :
    ((register_handler st mt none).message_handlers).lookup mt = some none ∧
    (process_message (register_handler st mt none).message_handlers
      (RawBody.parsed (JVal.obj [("metadata",
        JVal.obj [("messageType", JVal.str mt)]), ("payload", p)]))).calls =
      [] ∧
    (process_message (register_handler st mt none).message_handlers
      (RawBody.parsed (JVal.obj [("metadata",
        JVal.obj [("messageType", JVal.str mt)]), ("payload", p)]))).logs =
      [LogEvent.warnNoHandler] ∧
    (process_message (register_handler st mt none).message_handlers
      (RawBody.parsed (JVal.obj [("metadata",
        JVal.obj [("messageType", JVal.str mt)]), ("payload", p)]))).acked =
      true ∧
    (process_message (register_handler st mt none).message_handlers
      (RawBody.parsed (JVal.obj [("metadata",
        JVal.obj [("messageType", JVal.str mt)]), ("payload", p)]))).requeued =
      false := by
  have hlook : ((register_handler st mt none).message_handlers).lookup mt =
      some none := by
    simp [register_handler, List.lookup]
  refine ⟨hlook, ?_, ?_, ?_, ?_⟩
  all_goals
    simp [process_message, tryProcess, exceptClauses, pyIn, pyGetD,
      handlerFor, pyTruthyJ, List.lookup, hmt, hlook]

/-- Witness for C10 at a concrete registration and delivery. -/
theorem claim_C10_witness :
    ((register_handler stBase "test_type" none).message_handlers).lookup
      "test_type" = some none ∧
    (process_message (register_handler stBase "test_type" none).message_handlers
      (RawBody.parsed (JVal.obj [("metadata",
        JVal.obj [("messageType", JVal.str "test_type")]),
        ("payload", JVal.null)]))).calls = [] := by
  have h := claim_C10_falsy_handler stBase "test_type" JVal.null (by decide)
  exact ⟨h.1, h.2.1⟩

/-- C1 (code evaluated at the failing input): the envelope that
`create_envelope` builds for message type `test_type` with data
`{"test": "data"}` carries the payload at `metadata.data`, but the
delivery pipeline looks for a top-level `payload` key, so the registered
handler is never invoked — the pipeline logs a missing payload and merely
acknowledges, against the spec's round-trip and the repository's own test
which expects the handler called once with the original data. -/
theorem claim_C1_roundtrip_payload :
    metaField envC1 "data" = some (JVal.obj [("test", JVal.str "data")]) ∧
    (process_message [("test_type", some handlerOk)]
      (RawBody.parsed envC1)).calls = [] ∧
    (process_message [("test_type", some handlerOk)]
      (RawBody.parsed envC1)).logs = [LogEvent.errNoPayload] ∧
    (process_message [("test_type", some handlerOk)]
      (RawBody.parsed envC1)).acked = true :=
  ⟨rfl, rfl, rfl, rfl⟩

/-- C2 (code evaluated at the failing input): `publish_message` hands any
caller-supplied envelope straight to the exchange — here an envelope that
violates the envelope contract (empty metadata) is published verbatim,
with no `ContractValidator` involved and no `ValidationError` possible;
the definition of `publish_message` contains no validation step at all. -/
theorem claim_C2_publish_no_validation :
    publish_message envAllOk stConn "test.route"
        (JVal.obj [("metadata", JVal.obj [])]) =
      (Except.ok (), { stConn with published :=
        [("test.route", JVal.obj [("metadata", JVal.obj [])])] }) :=
  rfl

theorem any_of_lookup {β : Type} (l : List (String × β)) (k : String) (v : β)
    (h : l.lookup k = some v) : l.any (fun p => p.1 == k) = true := by
  induction l with
  | nil => simp [List.lookup] at h
  | cons p t ih =>
    obtain ⟨a, b⟩ := p
    simp only [List.lookup] at h
    simp only [List.any_cons, Bool.or_eq_true]
    cases hk : k == a with
    | true =>
      left
      simp only [beq_iff_eq] at hk ⊢
      exact hk.symm
    | false =>
      right
      rw [hk] at h
      exact ih h

/-- C3 (counterexample): when the per-type file is absent and the legacy
bundle parses to a JSON value that is not an object, `get_message_schema`
raises an uncaught `AttributeError` from `schema.get`, not the
`SchemaNotFound` `ValueError` — so it is not true that it fails with
`SchemaNotFound` exactly when neither lookup path succeeds. -/
theorem claim_C3_counterexample :
    (get_message_schema fsBadBundle "contracts" [] "mailing" "SuccessEmail").1 =
      Except.error PyErr.attrError ∧
    firstPathOk fsBadBundle "contracts" [] "mailing" "SuccessEmail" = false ∧
    legacyPathOk fsBadBundle "contracts" [] "mailing" "SuccessEmail" = false ∧
    (Except.error PyErr.attrError : Except PyErr JVal) ≠
      Except.error (PyErr.valueError
        (schemaNotFoundMsg "mailing" "SuccessEmail")) := by
  refine ⟨rfl, rfl, rfl, by simp⟩

/-- C3 (amended): schema resolution tries the lowercased per-type file
first and returns it on success; otherwise it consults the legacy bundle's
`definitions` under the exact-case type name; and — provided any loaded
legacy bundle is a JSON object whose `definitions` entry (defaulting to
empty) is an object — it fails with the `SchemaNotFound` `ValueError`
naming the domain and type exactly when neither lookup path succeeds.
Without the proviso the equivalence can fail: a bundle parsing to a
non-object makes `schema.get` raise an uncaught AttributeError instead
(the counterexample). -/
theorem claim_C3_schema_resolution (fs : FS) (dir : String) (cache : Cache)
    (domain mt : String)
    (hfs : ∀ j, fs (bundleSchemaPath dir domain) = FileRes.doc j →
      goodBundle j = true)
    (hc : ∀ j, cache.lookup (bundleSchemaPath dir domain) = some j →
      goodBundle j = true) :
    ((get_message_schema fs dir cache domain mt).1 =
        Except.error (PyErr.valueError (schemaNotFoundMsg domain mt)) ↔
      firstPathOk fs dir cache domain mt = false ∧
        legacyPathOk fs dir cache domain mt = false) ∧
    (firstPathOk fs dir cache domain mt = true →
      (get_message_schema fs dir cache domain mt).1 =
        (firstLoadOut fs dir cache domain mt).1) ∧
    (∀ defs v, firstPathOk fs dir cache domain mt = false →
      legacyDefs fs dir cache domain mt = JVal.obj defs →
      defs.lookup mt = some v →
      (get_message_schema fs dir cache domain mt).1 = Except.ok v) := by
  unfold get_message_schema firstPathOk legacyPathOk legacyDefs
    bundleLoadOut firstLoadOut
  rcases h1 : cachedLoad fs cache (typeSchemaPath dir domain mt) with
    ⟨res1, c1, r1⟩
  rcases res1 with e1 | s1
  · obtain ⟨hc1, -, -⟩ :=
      cachedLoad_error fs cache (typeSchemaPath dir domain mt) e1 c1 r1 h1
    dsimp only
    rcases h2 : cachedLoad fs c1 (bundleSchemaPath dir domain) with
      ⟨res2, c2, r2⟩
    rcases res2 with e2 | s2
    · dsimp only
      refine ⟨⟨fun _ => ⟨rfl, rfl⟩, fun _ => rfl⟩, ?_, ?_⟩
      · intro hfo
        simp at hfo
      · intro defs v hfo hdefs hv
        simp only [JVal.obj.injEq] at hdefs
        subst hdefs
        simp [List.lookup] at hv
    · rw [hc1] at h2
      have hsrc := cachedLoad_ok_source fs cache (bundleSchemaPath dir domain)
        s2 c2 r2 h2
      have hgb : goodBundle s2 = true := by
        rcases hsrc with hl | hd
        · exact hc s2 hl
        · exact hfs s2 hd
      rcases s2 with _ | b | n | s | xs | fields <;>
        try simp [goodBundle] at hgb
      dsimp only
      rcases hdefsv : (fields.lookup "definitions").getD (JVal.obj []) with
        _ | b | n | s | xs | defs <;> rw [hdefsv] at hgb <;> try simp at hgb
      dsimp only [pyGetD]
      rw [hdefsv]
      dsimp only [pyIn]
      rcases hany : defs.any (fun p => p.1 == mt) with _ | _
      · dsimp only
        refine ⟨⟨fun _ => ⟨rfl, rfl⟩, fun _ => rfl⟩, ?_, ?_⟩
        · intro hfo
          simp at hfo
        · intro defs2 v hfo hdefs hv
          simp only [JVal.obj.injEq] at hdefs
          subst hdefs
          have hany2 := any_of_lookup defs mt v hv
          rw [hany] at hany2
          simp at hany2
      · obtain ⟨v0, hv0⟩ := lookup_of_any defs mt hany
        dsimp only [pyIndexS]
        rw [hv0]
        dsimp only
        refine ⟨?_, ?_, ?_⟩
        · constructor
          · intro hcontra
            simp at hcontra
          · intro hcontra
            simp at hcontra
        · intro hfo
          simp at hfo
        · intro defs2 v hfo hdefs hv
          simp only [JVal.obj.injEq] at hdefs
          subst hdefs
          rw [hv0] at hv
          simp only [Option.some.injEq] at hv
          rw [hv]
  · dsimp only
    refine ⟨?_, fun _ => rfl, ?_⟩
    · constructor
      · intro hcontra
        simp at hcontra
      · intro hcontra
        simp at hcontra
    · intro defs v hfo hdefs hv
      simp at hfo

/-- Witness for the amended C3: with a well-formed legacy bundle and no
per-type file, resolution falls back to `definitions.SuccessEmail`. -/
theorem claim_C3_witness :
    (get_message_schema fsLegacy "contracts" [] "mailing" "SuccessEmail").1 =
      Except.ok (JVal.obj [("type", JVal.str "object")]) := by
  have hfs : ∀ j, fsLegacy (bundleSchemaPath "contracts" "mailing") =
      FileRes.doc j → goodBundle j = true := by
    intro j h
    have h2 := show FileRes.doc (JVal.obj [("definitions",
      JVal.obj [("SuccessEmail", JVal.obj [("type", JVal.str "object")])])]) =
      FileRes.doc j from h
    injection h2 with h3
    rw [← h3]
    decide
  have hc : ∀ j, ([] : Cache).lookup
      (bundleSchemaPath "contracts" "mailing") = some j →
      goodBundle j = true := by
    intro j h
    simp [List.lookup] at h
  have h := claim_C3_schema_resolution fsLegacy "contracts" [] "mailing"
    "SuccessEmail" hfs hc
  exact h.2.2 [("SuccessEmail", JVal.obj [("type", JVal.str "object")])]
    (JVal.obj [("type", JVal.str "object")]) rfl rfl rfl
